import Mathlib

/-!
Verification of the parking-management on-device controllers.

The development shallowly embeds the two Arduino sketches of the repository:
  - hardware/payment/process_payment.ino  (Payment Handshake Controller)
  - hardware/writing_on_rfid/top_up.ino   (Card Provisioning Controller)

Strings are modelled as lists of characters, tag blocks as lists of
characters (a well-formed block has length 16), the C long as an unbounded
Int (the values handled by the claims are far from 32-bit overflow), and
time (millis) as a Nat.  External effects (MFRC522 authenticate/read/write
results, serial availability, the clock) are supplied by an environment
record per loop() invocation; serial output is modelled as a list of
abstract output events.
-/

/-- Whitespace predicate of the C isspace function, used by the Arduino
String trim that the sketches call on every decoded block and host line. -/
def isSpaceChar (c : Char) : Bool :=
  c = ' ' || c = '\t' || c = '\n' || c = '\r' || c.toNat = 11 || c.toNat = 12

/-- Drop leading whitespace (the first phase of Arduino String trim). -/
def trimLeft (l : List Char) : List Char :=
  l.dropWhile isSpaceChar

/-- Drop trailing whitespace (the second phase of Arduino String trim). -/
def trimRight (l : List Char) : List Char :=
  (l.reverse.dropWhile isSpaceChar).reverse

/-- Arduino String trim: remove leading and trailing whitespace. -/
def trimC (l : List Char) : List Char :=
  trimLeft (trimRight l)

/-- Accumulate decimal digits, stopping at the first non-digit
(the digit-consuming loop of avr-libc atol, which Arduino toInt calls). -/
def parseDigits : List Char → Int → Int
  | [], acc => acc
  | c :: rest, acc =>
      if c.isDigit then parseDigits rest (10 * acc + ((c.toNat : Int) - 48))
      else acc

/-- Two's-complement value of an integer reduced modulo 2^32, as the
32-bit AVR long stores it. -/
def toInt32 (n : Int) : Int :=
  (n + 2147483648) % 4294967296 - 2147483648

/-- Arduino String toInt, i.e. avr-libc atol on a 32-bit long: skip
leading whitespace, optional sign, then digits until the first non-digit;
a string with no leading digits parses to 0.  The accumulation runs in
the 32-bit long and wraps silently on overflow (atol performs no range
check), which toInt32 of the unbounded accumulation reproduces exactly
because reduction modulo 2^32 commutes with the per-step arithmetic. -/
def atol (l : List Char) : Int :=
  toInt32
    (match l.dropWhile isSpaceChar with
      | '-' :: rest => - parseDigits rest 0
      | '+' :: rest => parseDigits rest 0
      | l1 => parseDigits l1 0)

/-- Minimal decimal rendering of a non-negative value, as String(long)
produces for the balance that is written back to the card. -/
def natChars (n : Nat) : List Char :=
  Nat.toDigits 10 n

/-- Right-pad with spaces to 16 bytes, as writeBlockData's while loop and
top_up's padBuffer both do. -/
def padTo16 (l : List Char) : List Char :=
  l ++ List.replicate (16 - l.length) ' '

/-- The NUL byte that Arduino String getBytes writes after the copied
characters. -/
def nulChar : Char :=
  Char.ofNat 0

/-- Arduino String getBytes into the sketch's 16-byte buffer: it copies
at most bufsize - 1 = 15 characters and NUL-terminates, so byte 15 of
the buffer is always 0x00. -/
def getBytes16 (data : List Char) : List Char :=
  data.take 15 ++ [nulChar]

/-- The block image writeBlockData prepares from a string: trim, right-pad
with spaces to 16 bytes, substring(0, 16), then getBytes into the 16-byte
buffer - which keeps only 15 characters and makes byte 15 a 0x00. -/
def encodeBlock (s : List Char) : List Char :=
  getBytes16 ((padTo16 (trimC s)).take 16)

/-- The string readBlockData builds from a block: the 16 data bytes as
characters, then trim. -/
def decodeBlock (b : List Char) : List Char :=
  trimC (b.take 16)

/-- A tag's two data blocks used by the system: block 2 (plate) and
block 4 (balance). -/
structure PTag where
  block2 : List Char
  block4 : List Char
  deriving DecidableEq, Repr

/-- Write a 16-byte image to one of the tag's modelled blocks. -/
def writeTagBlock (tag : PTag) (blockNumber : Nat) (content : List Char) : PTag :=
  if blockNumber = 2 then { tag with block2 := content }
  else if blockNumber = 4 then { tag with block4 := content }
  else tag

/-- readBlockData of process_payment.ino: authenticate, read, convert the
16 data bytes to a string and trim; failures yield the bracketed markers. -/
def readBlockData (authOk readOk : Bool) (content : List Char) : List Char :=
  if authOk = false then "[Auth Fail]".data
  else if readOk = false then "[Read Fail]".data
  else decodeBlock content

/-- writeBlockData of process_payment.ino: trim and pad the data to a
16-byte image, authenticate, then write; on authentication or write
failure the tag is left unchanged. -/
def writeBlockData (authOk writeOk : Bool) (blockNumber : Nat)
    (data : List Char) (tag : PTag) : PTag :=
  if authOk = false then tag
  else if writeOk = false then tag
  else writeTagBlock tag blockNumber (encodeBlock data)

/-- The global state of the payment sketch: the two progress flags, the
cached plate and balance, and the time at which READY was sent. -/
structure PayState where
  awaitingUpdate : Bool
  sentReady : Bool
  currentPlate : List Char
  currentBalance : Int
  readySentTime : Nat
  deriving DecidableEq, Repr

/-- One loop() invocation's environment: card presence, the MFRC522
results for the two block reads and for the block-4 write, the clock,
and the host line available on serial (if any). -/
structure PayEnv where
  cardPresent : Bool
  auth2 : Bool
  read2 : Bool
  auth4 : Bool
  read4 : Bool
  now : Nat
  hostLine : Option (List Char)
  writeAuth : Bool
  writeOk : Bool
  deriving DecidableEq, Repr

/-- Observable serial output events of the payment sketch. -/
inductive POut where
  | payload (plate bal : List Char)
  | ready
  | received (r : List Char)
  | doneAck
  | writingNotice
  | timeoutNotice
  | denyNotice
  | errorNotice
  | invalidCard
  | haltCard
  | stopCrypto
  | cooldown (ms : Nat)
  deriving DecidableEq, Repr

/-- Result of one loop() invocation: new state, new tag contents, outputs. -/
structure StepRes where
  state : PayState
  tag : PTag
  outs : List POut
  deriving DecidableEq, Repr

/-- Does a decoded value begin with the bracketed failure marker
(String startsWith applied to the single character left bracket)? -/
def bracketed : List Char → Bool
  | [] => false
  | c :: _ => c = '['

/-- The READY-sending phase of loop(): if a session is active and READY has
not been sent, emit READY, record millis, and set sentReady. -/
def phase2 (s : PayState) (e : PayEnv) : PayState × List POut :=
  if s.awaitingUpdate && !s.sentReady then
    ({ s with sentReady := true, readySentTime := e.now }, [POut.ready])
  else (s, [])

/-- The host-response phase of loop(): timeout check first, then, if a line
is available, parse it as the decision and act on it. -/
def phase3 (s : PayState) (tag : PTag) (e : PayEnv) : StepRes :=
  if s.awaitingUpdate && s.sentReady then
    if 10000 < e.now - s.readySentTime then
      { state := { s with awaitingUpdate := false, sentReady := false },
        tag := tag,
        outs := [POut.timeoutNotice, POut.haltCard, POut.stopCrypto, POut.cooldown 1000] }
    else
      match e.hostLine with
      | none => { state := s, tag := tag, outs := [] }
      | some line =>
          if trimC line = ['I'] then
            { state := { s with awaitingUpdate := false, sentReady := false },
              tag := tag,
              outs := [POut.received (trimC line), POut.denyNotice, POut.haltCard,
                       POut.stopCrypto, POut.cooldown 2000] }
          else
            if 0 ≤ atol (trimC line) then
              { state := { s with awaitingUpdate := false, sentReady := false },
                tag := writeBlockData e.writeAuth e.writeOk 4
                        (natChars (atol (trimC line)).toNat) tag,
                outs := [POut.received (trimC line), POut.writingNotice, POut.doneAck,
                         POut.haltCard, POut.stopCrypto, POut.cooldown 2000] }
            else
              { state := { s with awaitingUpdate := false, sentReady := false },
                tag := tag,
                outs := [POut.received (trimC line), POut.errorNotice, POut.haltCard,
                         POut.stopCrypto, POut.cooldown 2000] }
  else { state := s, tag := tag, outs := [] }

/-- One full invocation of the payment sketch's loop(): the card-reading
phase (with its early returns), then the READY phase, then the
host-response phase, exactly as the three if blocks run in sequence. -/
def loopStep (s : PayState) (tag : PTag) (e : PayEnv) : StepRes :=
  if s.awaitingUpdate = false then
    if e.cardPresent = false then { state := s, tag := tag, outs := [] }
    else
      let plate := readBlockData e.auth2 e.read2 tag.block2
      let balanceStr := readBlockData e.auth4 e.read4 tag.block4
      if bracketed plate || bracketed balanceStr then
        { state := { s with currentPlate := plate },
          tag := tag,
          outs := [POut.invalidCard, POut.haltCard, POut.stopCrypto, POut.cooldown 2000] }
      else
        let s1 : PayState :=
          { awaitingUpdate := true, sentReady := false,
            currentPlate := plate, currentBalance := atol balanceStr,
            readySentTime := s.readySentTime }
        let p2 := phase2 s1 e
        let r3 := phase3 p2.1 tag e
        { state := r3.state, tag := r3.tag,
          outs := POut.payload plate balanceStr :: (p2.2 ++ r3.outs) }
  else
    let p2 := phase2 s e
    let r3 := phase3 p2.1 tag e
    { state := r3.state, tag := r3.tag, outs := p2.2 ++ r3.outs }

/-- Run loop() over a list of environments, stopping as soon as the
controller is back in its idle configuration (no session awaiting). -/
def runToIdle : PayState → PTag → List PayEnv → StepRes
  | s, tag, [] => { state := s, tag := tag, outs := [] }
  | s, tag, e :: rest =>
      if s.awaitingUpdate then
        let r := loopStep s tag e
        let r2 := runToIdle r.state r.tag rest
        { state := r2.state, tag := r2.tag, outs := r.outs ++ r2.outs }
      else { state := s, tag := tag, outs := [] }

/-- Is an output event the READY sentinel line? -/
def isReadyOut : POut → Bool
  | POut.ready => true
  | _ => false

/-- Number of READY lines in an output trace. -/
def countReady (outs : List POut) : Nat :=
  outs.countP isReadyOut

/-- The session state right after a successful card read followed by the
READY send in the same loop() invocation: both flags set, the decoded
plate and balance cached, READY-time recorded at the current millis. -/
def sessionStart (tag : PTag) (e : PayEnv) : PayState :=
  { awaitingUpdate := true, sentReady := true,
    currentPlate := decodeBlock tag.block2,
    currentBalance := atol (decodeBlock tag.block4),
    readySentTime := e.now }

/-!
Provisioning Controller (top_up.ino).  Each operator interaction with one
prompt is modelled by the string that readBytesUntil captured for it: the
bytes received before the terminating hash character, the 16-byte buffer
limit, or the 20000 ms timeout (a timeout with nothing typed captures the
empty string).  After a rejected attempt flushSerial discards any pending
bytes, so successive attempts are independent captured strings.
-/

/-- The plate-prompt loop of top_up.ino: keep prompting until an attempt
has exactly 7 characters; return the accepted plate and the remaining
attempts.  A session whose attempts never satisfy the check never leaves
the prompt loop (None). -/
def readPlate : List (List Char) → Option (List Char × List (List Char))
  | [] => none
  | s :: rest => if s.length = 7 then some (s, rest) else readPlate rest

/-- The balance-prompt loop of top_up.ino: keep prompting until an attempt
has between 1 and 16 characters; return the accepted balance. -/
def readBalance : List (List Char) → Option (List Char)
  | [] => none
  | s :: rest =>
      if 0 < s.length ∧ s.length ≤ 16 then some s else readBalance rest

/-- One provisioning session over a list of captured prompt attempts:
accept a plate, then a balance, and produce the two space-padded 16-byte
images that are written to blocks 2 and 4 (padBuffer). -/
def provisionSession (inputs : List (List Char)) :
    Option (List Char × List Char) :=
  match readPlate inputs with
  | none => none
  | some (p, rest) =>
      match readBalance rest with
      | none => none
      | some b => some (padTo16 p, padTo16 b)

/-- The tag contents after a provisioning session: writeBytesToBlock is
attempted for block 2 and block 4 independently, each only changing the
tag when its authentication and write both succeed; while the prompt
loops have not both accepted an input, nothing is written. -/
def provisionStep (tag : PTag) (inputs : List (List Char))
    (auth2Ok write2Ok auth4Ok write4Ok : Bool) : PTag :=
  match provisionSession inputs with
  | none => tag
  | some (pb, bb) =>
      let t1 := if auth2Ok && write2Ok then { tag with block2 := pb } else tag
      if auth4Ok && write4Ok then { t1 with block4 := bb } else t1

/-- Spec-side notion for claim comparison: a syntactically valid
non-negative integer decision, per the spec's words, is a non-empty
string of decimal digits. -/
def specValidNonNegInt (l : List Char) : Bool :=
  !l.isEmpty && l.all Char.isDigit

/-!
Concrete fixtures used to instantiate the theorems: the tag of the
spec's scenarios (plate RAG234H, balance 5000) and a selection of
environments.
-/

/-- A provisioned tag: plate RAG234H in block 2, balance 5000 in block 4. -/
def tagScenario : PTag :=
  { block2 := padTo16 ("RAG234H".data), block4 := padTo16 ("5000".data) }

/-- Idle controller state (fresh boot). -/
def idleState : PayState :=
  { awaitingUpdate := false, sentReady := false, currentPlate := [],
    currentBalance := 0, readySentTime := 0 }

/-- Controller state awaiting the host decision, READY sent at time 0. -/
def awaitingState : PayState :=
  { awaitingUpdate := true, sentReady := true, currentPlate := ("RAG234H".data),
    currentBalance := 5000, readySentTime := 0 }

/-- Environment delivering a host line at time 500 with a healthy tag. -/
def envWithLine (l : List Char) : PayEnv :=
  { cardPresent := false, auth2 := true, read2 := true, auth4 := true,
    read4 := true, now := 500, hostLine := some l, writeAuth := true,
    writeOk := true }

/-- Environment at time 20000 with no host line: past the 10000 ms window. -/
def envTimeout : PayEnv :=
  { cardPresent := false, auth2 := true, read2 := true, auth4 := true,
    read4 := true, now := 20000, hostLine := none, writeAuth := true,
    writeOk := true }

/-- Environment presenting a card whose reads all succeed. -/
def envCardRead (l : Option (List Char)) : PayEnv :=
  { cardPresent := true, auth2 := true, read2 := true, auth4 := true,
    read4 := true, now := 100, hostLine := l, writeAuth := true,
    writeOk := true }

/-- Environment presenting a card whose block-2 authentication fails. -/
def envAuthFail : PayEnv :=
  { cardPresent := true, auth2 := false, read2 := true, auth4 := true,
    read4 := true, now := 100, hostLine := none, writeAuth := true,
    writeOk := true }

/-- Environment delivering a host line but whose write authentication
fails. -/
def envNoWriteAuth (l : List Char) : PayEnv :=
  { cardPresent := false, auth2 := true, read2 := true, auth4 := true,
    read4 := true, now := 500, hostLine := some l, writeAuth := false,
    writeOk := true }

/-! Basic codec lemmas. -/

lemma dropWhile_replicate_space_append (k : Nat) (xs : List Char) :
    List.dropWhile isSpaceChar (List.replicate k ' ' ++ xs) =
      List.dropWhile isSpaceChar xs := by
  induction k with
  | zero => simp
  | succ n ih =>
      rw [List.replicate_succ, List.cons_append, List.dropWhile_cons]
      simp only [show isSpaceChar ' ' = true from rfl, if_true, ih]

lemma trimRight_append_spaces (l : List Char) (k : Nat) :
    trimRight (l ++ List.replicate k ' ') = trimRight l := by
  unfold trimRight
  rw [List.reverse_append, List.reverse_replicate,
    dropWhile_replicate_space_append]

lemma trimC_append_spaces (l : List Char) (k : Nat) :
    trimC (l ++ List.replicate k ' ') = trimC l := by
  unfold trimC
  rw [trimRight_append_spaces]

lemma padTo16_length {l : List Char} (h : l.length ≤ 16) :
    (padTo16 l).length = 16 := by
  unfold padTo16
  rw [List.length_append, List.length_replicate]
  omega

lemma trimLeft_eq_self (s : List Char)
    (hhead : ∀ c, s.head? = some c → isSpaceChar c = false) :
    trimLeft s = s := by
  cases s with
  | nil => rfl
  | cons c t =>
      unfold trimLeft
      rw [List.dropWhile_cons, if_neg (by rw [hhead c rfl]; simp)]

lemma trimRight_eq_self (s : List Char)
    (hlast : ∀ c, s.getLast? = some c → isSpaceChar c = false) :
    trimRight s = s := by
  unfold trimRight
  cases hr : s.reverse with
  | nil =>
      rw [List.dropWhile_nil, ← hr, List.reverse_reverse]
  | cons c t =>
      have hc : s.getLast? = some c := by
        rw [← List.head?_reverse, hr, List.head?_cons]
      rw [List.dropWhile_cons, if_neg (by rw [hlast c hc]; simp), ← hr,
        List.reverse_reverse]

lemma trimC_eq_self_of_ends (s : List Char)
    (hhead : ∀ c, s.head? = some c → isSpaceChar c = false)
    (hlast : ∀ c, s.getLast? = some c → isSpaceChar c = false) :
    trimC s = s := by
  unfold trimC
  rw [trimRight_eq_self s hlast, trimLeft_eq_self s hhead]

lemma encodeBlock_image {s : List Char} (h15 : s.length ≤ 15)
    (htrim : trimC s = s) :
    encodeBlock s = s ++ List.replicate (15 - s.length) ' ' ++ [nulChar] := by
  unfold encodeBlock getBytes16
  rw [htrim,
    List.take_of_length_le (le_of_eq (padTo16_length (by omega)))]
  unfold padTo16
  rw [List.take_append_eq_append_take,
    List.take_of_length_le (by omega : s.length ≤ 15),
    List.take_replicate,
    Nat.min_eq_left (by omega : 15 - s.length ≤ 16 - s.length)]

/-! Characterization of the host-response phase. -/

lemma writeBlockData_block2 (a w : Bool) (d : List Char) (tag : PTag) :
    (writeBlockData a w 4 d tag).block2 = tag.block2 := by
  unfold writeBlockData writeTagBlock
  split
  · rfl
  · split
    · rfl
    · simp

lemma phase3_spec (s : PayState) (tag : PTag) (e : PayEnv) :
    (phase3 s tag e).tag.block2 = tag.block2 ∧
    ((phase3 s tag e).tag.block4 ≠ tag.block4 →
        ∃ line, e.hostLine = some line ∧ trimC line ≠ ['I'] ∧
          0 ≤ atol (trimC line) ∧ e.now - s.readySentTime ≤ 10000) ∧
    countReady (phase3 s tag e).outs = 0 ∧
    (phase3 s tag e).state.readySentTime = s.readySentTime ∧
    ((phase3 s tag e).state.awaitingUpdate = true → (phase3 s tag e).state = s) ∧
    (10000 < e.now - s.readySentTime → (phase3 s tag e).tag = tag) := by
  unfold phase3
  split
  · split
    · next hT =>
        refine ⟨rfl, fun h => absurd rfl h, ?_, rfl, ?_, fun _ => rfl⟩
        · simp [countReady, List.countP_cons, isReadyOut]
        · intro h; simp at h
    · next hT =>
        split
        · refine ⟨rfl, fun h => absurd rfl h, by simp [countReady], rfl, fun _ => rfl,
            fun h => absurd h hT⟩
        · next line heq =>
            split
            · next hI =>
                refine ⟨rfl, fun h => absurd rfl h, ?_, rfl, ?_, fun h => absurd h hT⟩
                · simp [countReady, List.countP_cons, isReadyOut]
                · intro h; simp at h
            · next hI =>
                split
                · next hNN =>
                    refine ⟨writeBlockData_block2 _ _ _ _, ?_, ?_, rfl, ?_,
                      fun h => absurd h hT⟩
                    · intro _
                      exact ⟨line, heq, hI, hNN, by omega⟩
                    · simp [countReady, List.countP_cons, isReadyOut]
                    · intro h; simp at h
                · next hNN =>
                    refine ⟨rfl, fun h => absurd rfl h, ?_, rfl, ?_,
                      fun h => absurd h hT⟩
                    · simp [countReady, List.countP_cons, isReadyOut]
                    · intro h; simp at h
  · exact ⟨rfl, fun h => absurd rfl h, rfl, rfl, fun _ => rfl, fun _ => rfl⟩

lemma phase2_of_sent (s : PayState) (e : PayEnv) (h : s.sentReady = true) :
    phase2 s e = (s, []) := by
  unfold phase2
  simp [h]

lemma phase2_of_fresh (s : PayState) (e : PayEnv)
    (hA : s.awaitingUpdate = true) (hS : s.sentReady = false) :
    phase2 s e =
      ({ s with sentReady := true, readySentTime := e.now }, [POut.ready]) := by
  unfold phase2
  simp [hA, hS]

lemma countReady_append (a b : List POut) :
    countReady (a ++ b) = countReady a + countReady b :=
  List.countP_append _ _ _

lemma loopStep_block2 (s : PayState) (tag : PTag) (e : PayEnv) :
    (loopStep s tag e).tag.block2 = tag.block2 := by
  unfold loopStep
  split
  · split
    · rfl
    · dsimp only
      split
      · rfl
      · exact (phase3_spec _ tag e).1
  · exact (phase3_spec _ tag e).1

lemma loopStep_write_line (s : PayState) (tag : PTag) (e : PayEnv) :
    (loopStep s tag e).tag.block4 ≠ tag.block4 →
      ∃ line, e.hostLine = some line ∧ trimC line ≠ ['I'] ∧
        0 ≤ atol (trimC line) := by
  unfold loopStep
  split
  · split
    · intro h; exact absurd rfl h
    · dsimp only
      split
      · intro h; exact absurd rfl h
      · intro h
        obtain ⟨line, heq, hI, hNN, _⟩ := (phase3_spec _ tag e).2.1 h
        exact ⟨line, heq, hI, hNN⟩
  · intro h
    obtain ⟨line, heq, hI, hNN, _⟩ := (phase3_spec _ tag e).2.1 h
    exact ⟨line, heq, hI, hNN⟩

lemma loopStep_timeout_no_write (s : PayState) (tag : PTag) (e : PayEnv)
    (hA : s.awaitingUpdate = true) (hS : s.sentReady = true)
    (hT : 10000 < e.now - s.readySentTime) :
    (loopStep s tag e).tag = tag := by
  unfold loopStep
  rw [if_neg (by simp [hA]), phase2_of_sent s e hS]
  exact (phase3_spec s tag e).2.2.2.2.2 hT

lemma loopStep_live (s : PayState) (tag : PTag) (e : PayEnv)
    (hA : s.awaitingUpdate = true) (hS : s.sentReady = true) :
    countReady (loopStep s tag e).outs = 0 ∧
    (loopStep s tag e).state.readySentTime = s.readySentTime ∧
    ((loopStep s tag e).state.awaitingUpdate = true →
      (loopStep s tag e).state.sentReady = true) := by
  unfold loopStep
  rw [if_neg (by simp [hA]), phase2_of_sent s e hS]
  have h := phase3_spec s tag e
  refine ⟨h.2.2.1, h.2.2.2.1, ?_⟩
  intro hAw
  rw [h.2.2.2.2.1 hAw]
  exact hS

lemma runToIdle_idle (s : PayState) (tag : PTag) (envs : List PayEnv)
    (h : s.awaitingUpdate = false) :
    runToIdle s tag envs = { state := s, tag := tag, outs := [] } := by
  cases envs with
  | nil => rfl
  | cons e rest =>
      unfold runToIdle
      rw [if_neg (by simp [h])]

lemma runToIdle_live (envs : List PayEnv) :
    ∀ (s : PayState) (tag : PTag), s.awaitingUpdate = true → s.sentReady = true →
      countReady (runToIdle s tag envs).outs = 0 ∧
      ((runToIdle s tag envs).state.awaitingUpdate = true →
        (runToIdle s tag envs).state.readySentTime = s.readySentTime) := by
  induction envs with
  | nil => intro s tag hA hS; exact ⟨rfl, fun _ => rfl⟩
  | cons e rest ih =>
      intro s tag hA hS
      unfold runToIdle
      rw [if_pos hA]
      have hstep := loopStep_live s tag e hA hS
      by_cases hA2 : (loopStep s tag e).state.awaitingUpdate = true
      · have hS2 := hstep.2.2 hA2
        have hrest := ih (loopStep s tag e).state (loopStep s tag e).tag hA2 hS2
        refine ⟨?_, ?_⟩
        · show countReady ((loopStep s tag e).outs ++
            (runToIdle (loopStep s tag e).state (loopStep s tag e).tag rest).outs) = 0
          rw [countReady_append, hstep.1, hrest.1]
        · show (runToIdle (loopStep s tag e).state
              (loopStep s tag e).tag rest).state.awaitingUpdate = true →
            (runToIdle (loopStep s tag e).state
              (loopStep s tag e).tag rest).state.readySentTime = s.readySentTime
          intro hAf
          rw [hrest.2 hAf, hstep.2.1]
      · have hfalse : (loopStep s tag e).state.awaitingUpdate = false := by
          revert hA2; cases (loopStep s tag e).state.awaitingUpdate <;> simp
        have hidle :=
          runToIdle_idle (loopStep s tag e).state (loopStep s tag e).tag rest hfalse
        refine ⟨?_, ?_⟩
        · show countReady ((loopStep s tag e).outs ++
            (runToIdle (loopStep s tag e).state (loopStep s tag e).tag rest).outs) = 0
          rw [hidle, countReady_append, hstep.1]
          rfl
        · show (runToIdle (loopStep s tag e).state
              (loopStep s tag e).tag rest).state.awaitingUpdate = true →
            (runToIdle (loopStep s tag e).state
              (loopStep s tag e).tag rest).state.readySentTime = s.readySentTime
          rw [hidle]
          intro hAf
          exact absurd hAf hA2

lemma loopStep_live_timeout (s : PayState) (tag : PTag) (e : PayEnv)
    (hA : s.awaitingUpdate = true) (hS : s.sentReady = true)
    (hT : 10000 < e.now - s.readySentTime) :
    loopStep s tag e =
      { state := { s with awaitingUpdate := false, sentReady := false },
        tag := tag,
        outs := [POut.timeoutNotice, POut.haltCard, POut.stopCrypto,
                 POut.cooldown 1000] } := by
  unfold loopStep
  rw [if_neg (by simp [hA]), phase2_of_sent s e hS]
  dsimp only
  unfold phase3
  rw [if_pos (by simp [hA, hS]), if_pos hT]
  rfl

lemma loopStep_live_response (s : PayState) (tag : PTag) (e : PayEnv)
    (hA : s.awaitingUpdate = true) (hS : s.sentReady = true)
    (hT : e.now - s.readySentTime ≤ 10000)
    (line : List Char) (hL : e.hostLine = some line) :
    loopStep s tag e =
      if trimC line = ['I'] then
        { state := { s with awaitingUpdate := false, sentReady := false },
          tag := tag,
          outs := [POut.received (trimC line), POut.denyNotice, POut.haltCard,
                   POut.stopCrypto, POut.cooldown 2000] }
      else if 0 ≤ atol (trimC line) then
        { state := { s with awaitingUpdate := false, sentReady := false },
          tag := writeBlockData e.writeAuth e.writeOk 4
                  (natChars (atol (trimC line)).toNat) tag,
          outs := [POut.received (trimC line), POut.writingNotice, POut.doneAck,
                   POut.haltCard, POut.stopCrypto, POut.cooldown 2000] }
      else
        { state := { s with awaitingUpdate := false, sentReady := false },
          tag := tag,
          outs := [POut.received (trimC line), POut.errorNotice, POut.haltCard,
                   POut.stopCrypto, POut.cooldown 2000] } := by
  unfold loopStep
  rw [if_neg (by simp [hA]), phase2_of_sent s e hS]
  dsimp only
  unfold phase3
  rw [if_pos (by simp [hA, hS]), if_neg (by omega), hL]
  rfl

lemma bracketed_readBlockData_of_fail (a r : Bool) (c : List Char)
    (h : a = false ∨ r = false) :
    bracketed (readBlockData a r c) = true := by
  rcases h with h | h
  · simp only [readBlockData, h, if_true]
    decide
  · cases ha : a
    · simp only [readBlockData, if_true]
      decide
    · simp only [readBlockData, h, if_true]
      rw [if_neg (by simp)]
      decide

lemma loopStep_read_failure (s : PayState) (tag : PTag) (e : PayEnv)
    (hA : s.awaitingUpdate = false) (hC : e.cardPresent = true)
    (hFail : (e.auth2 = false ∨ e.read2 = false) ∨
             (e.auth4 = false ∨ e.read4 = false)) :
    loopStep s tag e =
      { state := { s with currentPlate := readBlockData e.auth2 e.read2 tag.block2 },
        tag := tag,
        outs := [POut.invalidCard, POut.haltCard, POut.stopCrypto,
                 POut.cooldown 2000] } := by
  unfold loopStep
  rw [if_pos hA, if_neg (by simp [hC])]
  dsimp only
  rw [if_pos ?hcond]
  case hcond =>
    rcases hFail with h | h
    · rw [bracketed_readBlockData_of_fail _ _ _ h]
      simp
    · rw [bracketed_readBlockData_of_fail _ _ _ h]
      simp

lemma loopStep_idle_success (s : PayState) (tag : PTag) (e : PayEnv)
    (hA : s.awaitingUpdate = false) (hC : e.cardPresent = true)
    (h2a : e.auth2 = true) (h2r : e.read2 = true)
    (h4a : e.auth4 = true) (h4r : e.read4 = true)
    (hB2 : bracketed (decodeBlock tag.block2) = false)
    (hB4 : bracketed (decodeBlock tag.block4) = false) :
    loopStep s tag e =
      { state := (phase3 (sessionStart tag e) tag e).state,
        tag := (phase3 (sessionStart tag e) tag e).tag,
        outs := POut.payload (decodeBlock tag.block2) (decodeBlock tag.block4) ::
          POut.ready :: (phase3 (sessionStart tag e) tag e).outs } := by
  unfold loopStep
  rw [if_pos hA, if_neg (by simp [hC])]
  dsimp only
  rw [(show readBlockData e.auth2 e.read2 tag.block2 = decodeBlock tag.block2 by
        simp [readBlockData, h2a, h2r]),
      (show readBlockData e.auth4 e.read4 tag.block4 = decodeBlock tag.block4 by
        simp [readBlockData, h4a, h4r]),
      if_neg (by simp [hB2, hB4])]
  rw [phase2_of_fresh _ e rfl rfl]
  rfl


/-! Claim theorems. -/

/-- C3 counterexample: for the plate RAG234H the payment writer's stored
block is not the 7 characters followed by space padding to 16 bytes
(String getBytes makes byte 15 a 0x00), and decoding the stored block
does not give the plate back: the trailing NUL survives the trim. -/
theorem codec_round_trip_fails :
    decodeBlock (encodeBlock ("RAG234H".data)) ≠ ("RAG234H".data) ∧
    encodeBlock ("RAG234H".data) ≠
      ("RAG234H".data) ++ List.replicate 9 ' ' := by
  decide

/-- C3 (amended): for a non-empty string of at most 15 characters with no
leading or trailing whitespace, the payment writer's stored block is the
string, space padding to 15 bytes, and a terminating 0x00 as byte 16;
decoding that block returns the string with the padding and the NUL still
attached (trim strips neither), so the clean round trip fails for the
payment writer, while a block stored by the provisioning writer, which
pads all 16 bytes with spaces, does decode back to the string. -/
theorem codec_round_trip (s : List Char) (h15 : s.length ≤ 15)
    (hne : s ≠ [])
    (hhead : ∀ c, s.head? = some c → isSpaceChar c = false)
    (hlast : ∀ c, s.getLast? = some c → isSpaceChar c = false) :
    encodeBlock s = s ++ List.replicate (15 - s.length) ' ' ++ [nulChar] ∧
    decodeBlock (encodeBlock s) =
      s ++ List.replicate (15 - s.length) ' ' ++ [nulChar] ∧
    decodeBlock (padTo16 s) = s := by
  have htrim := trimC_eq_self_of_ends s hhead hlast
  have he := encodeBlock_image h15 htrim
  refine ⟨he, ?_, ?_⟩
  · rw [he]
    unfold decodeBlock
    rw [List.take_of_length_le (by
      simp only [List.length_append, List.length_replicate, List.length_cons,
        List.length_nil]
      omega)]
    apply trimC_eq_self_of_ends
    · intro c hc
      rcases s with _ | ⟨a, t⟩
      · exact absurd rfl hne
      · rw [List.cons_append, List.cons_append, List.head?_cons] at hc
        cases hc
        exact hhead _ rfl
    · intro c hc
      rw [List.getLast?_concat] at hc
      cases hc
      decide
  · unfold decodeBlock
    rw [List.take_of_length_le (le_of_eq (padTo16_length (by omega)))]
    unfold padTo16
    rw [trimC_append_spaces]
    exact htrim

/-- C3 witness: the plate RAG234H is stored as its 7 characters, 8
spaces and a NUL; the payment decode returns that padded form, and the
provisioning image decodes back to the plate. -/
theorem codec_round_trip_witness :
    encodeBlock ("RAG234H".data) =
      "RAG234H".data ++ List.replicate 8 ' ' ++ [nulChar] ∧
    decodeBlock (encodeBlock ("RAG234H".data)) =
      "RAG234H".data ++ List.replicate 8 ' ' ++ [nulChar] ∧
    decodeBlock (padTo16 ("RAG234H".data)) = "RAG234H".data :=
  codec_round_trip ("RAG234H".data) (by decide) (by decide)
    (fun c hc => by cases hc; decide) (fun c hc => by cases hc; decide)

/-- C1 counterexample: the host line abc is not a syntactically valid
non-negative integer, yet with the session awaiting the decision the
controller does write block 4 (the silent-zero parse makes abc a
NewBalance of 0), changing the stored balance. -/
theorem payment_malformed_line_writes_block4 :
    specValidNonNegInt (trimC ("abc".data)) = false ∧
    (loopStep awaitingState tagScenario (envWithLine ("abc".data))).tag.block4 =
      ('0' :: List.replicate 14 ' ' ++ [nulChar]) ∧
    ('0' :: List.replicate 14 ' ' ++ [nulChar]) ≠ tagScenario.block4 := by
  decide

/-- C1 (amended): the payment controller writes block 4 only when it has
received a host line whose trimmed text differs from the literal I and
whose integer parse - avr-libc atol on a 32-bit long, silently wrapping
on overflow and yielding 0 on non-numeric text - is non-negative, and a
poll past the 10000 ms window never writes; a line that is not a
well-formed integer parses to 0 and therefore does count as a
non-negative decision. -/
theorem payment_block4_write_requires_decision (s : PayState) (tag : PTag)
    (e : PayEnv) :
    ((loopStep s tag e).tag.block4 ≠ tag.block4 →
      ∃ line, e.hostLine = some line ∧ trimC line ≠ ['I'] ∧
        0 ≤ atol (trimC line)) ∧
    (s.awaitingUpdate = true → s.sentReady = true →
      10000 < e.now - s.readySentTime → (loopStep s tag e).tag = tag) :=
  ⟨loopStep_write_line s tag e, loopStep_timeout_no_write s tag e⟩

/-- C1 witness: the line 3500 satisfies the write precondition, and a
poll at time 20000 with READY sent at 0 leaves the tag unchanged. -/
theorem payment_block4_write_requires_decision_witness :
    (∃ line, (envWithLine ("3500".data)).hostLine = some line ∧
      trimC line ≠ ['I'] ∧ 0 ≤ atol (trimC line)) ∧
    (loopStep awaitingState tagScenario envTimeout).tag = tagScenario := by
  constructor
  · exact (payment_block4_write_requires_decision awaitingState tagScenario
      (envWithLine ("3500".data))).1 (by decide)
  · exact (payment_block4_write_requires_decision awaitingState tagScenario
      envTimeout).2 rfl rfl (by decide)

/-- C2 counterexample: in scenario A the block-4 image the program writes
is not the space-padded 3500 of the claim - String getBytes keeps 15
characters and NUL-terminates, so byte 15 of the written block is 0x00,
not a space. -/
theorem payment_commit_image_not_space_padded :
    (loopStep awaitingState tagScenario (envWithLine ("3500".data))).tag.block4 ≠
      ("3500".data ++ List.replicate 12 ' ') ∧
    (loopStep awaitingState tagScenario (envWithLine ("3500".data))).tag.block4 =
      ("3500".data ++ List.replicate 11 ' ' ++ [nulChar]) := by
  decide

/-- C2 (amended): with the session awaiting the decision and a healthy
tag, host line 3500 makes the controller write 3500 to block 4 -
space-padded to 15 bytes with a terminating 0x00 as byte 16 - and emit
DONE; block 2 is untouched, and indeed no payment step whatsoever
modifies block 2. -/
theorem payment_commit_writes_block4_only (s : PayState) (tag : PTag)
    (e : PayEnv)
    (hA : s.awaitingUpdate = true) (hS : s.sentReady = true)
    (hT : e.now - s.readySentTime ≤ 10000)
    (hL : e.hostLine = some ("3500".data))
    (hWA : e.writeAuth = true) (hWO : e.writeOk = true) :
    (loopStep s tag e).tag.block4 =
      ("3500".data ++ List.replicate 11 ' ' ++ [nulChar]) ∧
    POut.doneAck ∈ (loopStep s tag e).outs ∧
    (loopStep s tag e).tag.block2 = tag.block2 ∧
    (∀ (s2 : PayState) (tag2 : PTag) (e2 : PayEnv),
      (loopStep s2 tag2 e2).tag.block2 = tag2.block2) := by
  rw [loopStep_live_response s tag e hA hS hT _ hL,
    if_neg (by decide), if_pos (by decide)]
  refine ⟨?_, by simp, writeBlockData_block2 _ _ _ tag,
    fun s2 tag2 e2 => loopStep_block2 s2 tag2 e2⟩
  show (writeBlockData e.writeAuth e.writeOk 4
    (natChars (atol (trimC ("3500".data))).toNat) tag).block4 =
      ("3500".data ++ List.replicate 11 ' ' ++ [nulChar])
  rw [hWA, hWO]
  unfold writeBlockData writeTagBlock
  rw [if_neg (by simp), if_neg (by simp), if_neg (by simp), if_pos rfl]
  show encodeBlock (natChars (atol (trimC ("3500".data))).toNat) =
    ("3500".data ++ List.replicate 11 ' ' ++ [nulChar])
  decide

/-- C2 witness: scenario A on the RAG234H / 5000 tag. -/
theorem payment_commit_writes_block4_only_witness :
    (loopStep awaitingState tagScenario (envWithLine ("3500".data))).tag.block4 =
      ("3500".data ++ List.replicate 11 ' ' ++ [nulChar]) ∧
    POut.doneAck ∈ (loopStep awaitingState tagScenario
      (envWithLine ("3500".data))).outs ∧
    (loopStep awaitingState tagScenario (envWithLine ("3500".data))).tag.block2 =
      tagScenario.block2 ∧
    (∀ (s2 : PayState) (tag2 : PTag) (e2 : PayEnv),
      (loopStep s2 tag2 e2).tag.block2 = tag2.block2) :=
  payment_commit_writes_block4_only awaitingState tagScenario
    (envWithLine ("3500".data)) rfl rfl (by decide) rfl rfl rfl

/-- C4: with the session awaiting the decision, a host line that trims to
the literal I makes the controller emit the denial notice, leave the tag
completely unchanged, and end the session back in the idle configuration. -/
theorem payment_deny_no_write (s : PayState) (tag : PTag) (e : PayEnv)
    (hA : s.awaitingUpdate = true) (hS : s.sentReady = true)
    (hT : e.now - s.readySentTime ≤ 10000)
    (line : List Char) (hL : e.hostLine = some line)
    (hI : trimC line = ['I']) :
    (loopStep s tag e).tag = tag ∧
    POut.denyNotice ∈ (loopStep s tag e).outs ∧
    (loopStep s tag e).state.awaitingUpdate = false ∧
    (loopStep s tag e).state.sentReady = false := by
  rw [loopStep_live_response s tag e hA hS hT line hL, if_pos hI]
  exact ⟨rfl, by simp, rfl, rfl⟩

/-- C4 witness: scenario B, host replies I. -/
theorem payment_deny_no_write_witness :
    (loopStep awaitingState tagScenario (envWithLine ("I".data))).tag =
      tagScenario ∧
    POut.denyNotice ∈ (loopStep awaitingState tagScenario
      (envWithLine ("I".data))).outs ∧
    (loopStep awaitingState tagScenario
      (envWithLine ("I".data))).state.awaitingUpdate = false ∧
    (loopStep awaitingState tagScenario
      (envWithLine ("I".data))).state.sentReady = false :=
  payment_deny_no_write awaitingState tagScenario (envWithLine ("I".data))
    rfl rfl (by decide) ("I".data) rfl (by decide)

/-- C5: once the poll clock is more than 10000 ms past the READY
timestamp, the controller emits exactly the timeout notice, halts the
tag, stops the crypto session, cools down 1000 ms, writes nothing, and
is back in the idle configuration. -/
theorem payment_timeout_no_write (s : PayState) (tag : PTag) (e : PayEnv)
    (hA : s.awaitingUpdate = true) (hS : s.sentReady = true)
    (hT : 10000 < e.now - s.readySentTime) :
    (loopStep s tag e).tag = tag ∧
    (loopStep s tag e).outs =
      [POut.timeoutNotice, POut.haltCard, POut.stopCrypto, POut.cooldown 1000] ∧
    (loopStep s tag e).state.awaitingUpdate = false ∧
    (loopStep s tag e).state.sentReady = false := by
  rw [loopStep_live_timeout s tag e hA hS hT]
  exact ⟨rfl, rfl, rfl, rfl⟩

/-- C5 witness: scenario C, silence until time 20000. -/
theorem payment_timeout_no_write_witness :
    (loopStep awaitingState tagScenario envTimeout).tag = tagScenario ∧
    (loopStep awaitingState tagScenario envTimeout).outs =
      [POut.timeoutNotice, POut.haltCard, POut.stopCrypto, POut.cooldown 1000] ∧
    (loopStep awaitingState tagScenario envTimeout).state.awaitingUpdate = false ∧
    (loopStep awaitingState tagScenario envTimeout).state.sentReady = false :=
  payment_timeout_no_write awaitingState tagScenario envTimeout rfl rfl
    (by decide)

/-- C6: if authentication or the read fails for block 2 or block 4 during
the card-read phase, the step emits exactly the invalid-card notice,
halt, crypto stop and the 2000 ms cooldown - in particular neither the
plate,balance payload nor READY is sent - the tag is unchanged, and the
controller stays idle. -/
theorem payment_read_failure_aborts (s : PayState) (tag : PTag) (e : PayEnv)
    (hA : s.awaitingUpdate = false) (hC : e.cardPresent = true)
    (hFail : (e.auth2 = false ∨ e.read2 = false) ∨
             (e.auth4 = false ∨ e.read4 = false)) :
    (loopStep s tag e).outs =
      [POut.invalidCard, POut.haltCard, POut.stopCrypto, POut.cooldown 2000] ∧
    (loopStep s tag e).tag = tag ∧
    (loopStep s tag e).state.awaitingUpdate = false := by
  rw [loopStep_read_failure s tag e hA hC hFail]
  exact ⟨rfl, rfl, hA⟩

/-- C6 witness: scenario D, authentication fails on block 2. -/
theorem payment_read_failure_aborts_witness :
    (loopStep idleState tagScenario envAuthFail).outs =
      [POut.invalidCard, POut.haltCard, POut.stopCrypto, POut.cooldown 2000] ∧
    (loopStep idleState tagScenario envAuthFail).tag = tagScenario ∧
    (loopStep idleState tagScenario envAuthFail).state.awaitingUpdate = false :=
  payment_read_failure_aborts idleState tagScenario envAuthFail rfl rfl
    (Or.inl (Or.inl rfl))

/-- C9: whenever a non-negative decision is received (non-negative for
the program's own wrapping 32-bit parse), DONE is emitted no matter how
the write goes; if the write authentication or the write itself fails,
the tag is unchanged although DONE was emitted. -/
theorem payment_done_emitted_unconditionally (s : PayState) (tag : PTag)
    (e : PayEnv)
    (hA : s.awaitingUpdate = true) (hS : s.sentReady = true)
    (hT : e.now - s.readySentTime ≤ 10000)
    (line : List Char) (hL : e.hostLine = some line)
    (hI : trimC line ≠ ['I']) (hNN : 0 ≤ atol (trimC line)) :
    POut.doneAck ∈ (loopStep s tag e).outs ∧
    (e.writeAuth = false → (loopStep s tag e).tag = tag) ∧
    (e.writeOk = false → (loopStep s tag e).tag = tag) := by
  rw [loopStep_live_response s tag e hA hS hT line hL, if_neg hI, if_pos hNN]
  refine ⟨by simp, ?_, ?_⟩
  · intro h
    show writeBlockData e.writeAuth e.writeOk 4
      (natChars (atol (trimC line)).toNat) tag = tag
    unfold writeBlockData
    rw [if_pos h]
  · intro h
    show writeBlockData e.writeAuth e.writeOk 4
      (natChars (atol (trimC line)).toNat) tag = tag
    unfold writeBlockData
    by_cases ha : e.writeAuth = false
    · rw [if_pos ha]
    · rw [if_neg ha, if_pos h]

/-- C9 witness: host line 3500 with failing write authentication: DONE is
emitted and block 4 keeps its old value. -/
theorem payment_done_emitted_unconditionally_witness :
    POut.doneAck ∈ (loopStep awaitingState tagScenario
      (envNoWriteAuth ("3500".data))).outs ∧
    (loopStep awaitingState tagScenario (envNoWriteAuth ("3500".data))).tag =
      tagScenario := by
  have h := payment_done_emitted_unconditionally awaitingState tagScenario
    (envNoWriteAuth ("3500".data)) rfl rfl (by decide) ("3500".data) rfl
    (by decide) (by decide)
  exact ⟨h.1, h.2.1 rfl⟩

/-- C7: a step that starts a session from idle (card present, both reads
succeed, contents well formed) emits READY, and over the whole session -
that step plus every following poll until the controller is back in the
idle configuration - READY appears exactly once; the READY timestamp is
the clock value of the emitting step and is still the value used by the
timeout check at any later in-session poll. -/
theorem payment_ready_exactly_once (s : PayState) (tag : PTag) (e : PayEnv)
    (envs : List PayEnv)
    (hA : s.awaitingUpdate = false) (hC : e.cardPresent = true)
    (h2a : e.auth2 = true) (h2r : e.read2 = true)
    (h4a : e.auth4 = true) (h4r : e.read4 = true)
    (hB2 : bracketed (decodeBlock tag.block2) = false)
    (hB4 : bracketed (decodeBlock tag.block4) = false) :
    countReady ((loopStep s tag e).outs ++
      (runToIdle (loopStep s tag e).state (loopStep s tag e).tag envs).outs) = 1 ∧
    (loopStep s tag e).state.readySentTime = e.now ∧
    ((runToIdle (loopStep s tag e).state (loopStep s tag e).tag envs).state.awaitingUpdate = true →
      (runToIdle (loopStep s tag e).state
        (loopStep s tag e).tag envs).state.readySentTime = e.now) := by
  have hstep := loopStep_idle_success s tag e hA hC h2a h2r h4a h4r hB2 hB4
  have hp3 := phase3_spec (sessionStart tag e) tag e
  rw [hstep]
  refine ⟨?_, hp3.2.2.2.1, ?_⟩
  · rw [countReady_append]
    have hout : countReady (POut.payload (decodeBlock tag.block2)
        (decodeBlock tag.block4) :: POut.ready ::
        (phase3 (sessionStart tag e) tag e).outs) =
        countReady (phase3 (sessionStart tag e) tag e).outs + 1 := by
      simp [countReady, List.countP_cons, isReadyOut]
    rw [hout, hp3.2.2.1]
    by_cases hA2 : (phase3 (sessionStart tag e) tag e).state.awaitingUpdate = true
    · have hseq := hp3.2.2.2.2.1 hA2
      rw [hseq]
      rw [(runToIdle_live envs (sessionStart tag e)
        (phase3 (sessionStart tag e) tag e).tag rfl rfl).1]
    · have hfalse : (phase3 (sessionStart tag e) tag e).state.awaitingUpdate = false := by
        revert hA2
        cases (phase3 (sessionStart tag e) tag e).state.awaitingUpdate <;> simp
      rw [runToIdle_idle _ _ envs hfalse]
      rfl
  · intro hAf
    by_cases hA2 : (phase3 (sessionStart tag e) tag e).state.awaitingUpdate = true
    · have hseq := hp3.2.2.2.2.1 hA2
      rw [hseq] at hAf ⊢
      have hrun := runToIdle_live envs (sessionStart tag e)
        (phase3 (sessionStart tag e) tag e).tag rfl rfl
      exact hrun.2 hAf
    · have hfalse : (phase3 (sessionStart tag e) tag e).state.awaitingUpdate = false := by
        revert hA2
        cases (phase3 (sessionStart tag e) tag e).state.awaitingUpdate <;> simp
      rw [runToIdle_idle _ _ envs hfalse] at hAf
      exact absurd hAf hA2

/-- C7 witness: reading the scenario tag at time 100 with the host
answering 3500 on the next poll emits READY exactly once over the
session, with the timestamp recorded at 100. -/
theorem payment_ready_exactly_once_witness :
    countReady ((loopStep idleState tagScenario (envCardRead none)).outs ++
      (runToIdle (loopStep idleState tagScenario (envCardRead none)).state
        (loopStep idleState tagScenario (envCardRead none)).tag
        [envWithLine ("3500".data)]).outs) = 1 ∧
    (loopStep idleState tagScenario (envCardRead none)).state.readySentTime =
      (envCardRead none).now ∧
    ((runToIdle (loopStep idleState tagScenario (envCardRead none)).state
        (loopStep idleState tagScenario (envCardRead none)).tag
        [envWithLine ("3500".data)]).state.awaitingUpdate = true →
      (runToIdle (loopStep idleState tagScenario (envCardRead none)).state
        (loopStep idleState tagScenario (envCardRead none)).tag
        [envWithLine ("3500".data)]).state.readySentTime =
        (envCardRead none).now) :=
  payment_ready_exactly_once idleState tagScenario (envCardRead none)
    [envWithLine ("3500".data)] rfl rfl rfl rfl rfl rfl (by decide) (by decide)

/-! Provisioning lemmas and claims. -/

lemma readPlate_sound (inputs : List (List Char)) :
    ∀ p rest, readPlate inputs = some (p, rest) → p.length = 7 := by
  induction inputs with
  | nil => intro p rest h; cases h
  | cons s rest2 ih =>
      intro p rest h
      unfold readPlate at h
      split at h
      · next hs =>
          cases h
          exact hs
      · exact ih _ _ h

lemma readBalance_sound (inputs : List (List Char)) :
    ∀ b, readBalance inputs = some b → 0 < b.length ∧ b.length ≤ 16 := by
  induction inputs with
  | nil => intro b h; cases h
  | cons s rest ih =>
      intro b h
      unfold readBalance at h
      split at h
      · next hs =>
          cases h
          exact hs
      · exact ih _ h

/-- C8: the plate prompt accepts an attempt exactly when it has 7
characters, rejecting any other length by re-entering the same prompt;
and a provisioning session produces block images only from an accepted
7-character plate and an accepted 1-to-16-character balance, performing
no write while either prompt is still rejecting. -/
theorem provisioning_plate_length_validation :
    (∀ (s : List Char) (rest : List (List Char)), s.length = 7 →
        readPlate (s :: rest) = some (s, rest)) ∧
    (∀ (s : List Char) (rest : List (List Char)), s.length ≠ 7 →
        readPlate (s :: rest) = readPlate rest) ∧
    (∀ inputs pb bb, provisionSession inputs = some (pb, bb) →
        ∃ p rest b, readPlate inputs = some (p, rest) ∧
          readBalance rest = some b ∧ p.length = 7 ∧
          0 < b.length ∧ b.length ≤ 16 ∧
          pb = padTo16 p ∧ bb = padTo16 b) ∧
    (∀ tag inputs a b c d, provisionSession inputs = none →
        provisionStep tag inputs a b c d = tag) := by
  refine ⟨?_, ?_, ?_, ?_⟩
  · intro s rest h
    simp only [readPlate]
    rw [if_pos h]
  · intro s rest h
    simp only [readPlate]
    rw [if_neg h]
  · intro inputs pb bb h
    unfold provisionSession at h
    cases hp : readPlate inputs with
    | none => rw [hp] at h; cases h
    | some pr =>
        obtain ⟨p, rest⟩ := pr
        rw [hp] at h
        dsimp only at h
        cases hb : readBalance rest with
        | none => rw [hb] at h; cases h
        | some b =>
            rw [hb] at h
            cases h
            exact ⟨p, rest, b, rfl, hb, readPlate_sound inputs p rest hp,
              (readBalance_sound rest b hb).1, (readBalance_sound rest b hb).2,
              rfl, rfl⟩
  · intro tag inputs a b c d h
    unfold provisionStep
    rw [h]

/-- C8 witness: a 6-character attempt is rejected and the following
RAB123C is accepted with nothing left pending. -/
theorem provisioning_plate_length_validation_witness :
    readPlate (("RAB123".data) :: ("RAB123C".data) :: []) =
      some ("RAB123C".data, []) := by
  rw [provisioning_plate_length_validation.2.1 ("RAB123".data)
      (("RAB123C".data) :: []) (by decide),
    provisioning_plate_length_validation.1 ("RAB123C".data) [] (by decide)]

lemma readPlate_skip_nil (rest : List (List Char)) :
    readPlate ([] :: rest) = readPlate rest := by
  simp only [readPlate]
  rw [if_neg (by decide)]

lemma readBalance_skip_nil (rest : List (List Char)) :
    readBalance ([] :: rest) = readBalance rest := by
  simp only [readBalance]
  rw [if_neg (by decide)]

lemma readBalance_insert_nil (pre post : List (List Char)) :
    readBalance (pre ++ [] :: post) = readBalance (pre ++ post) := by
  induction pre with
  | nil =>
      simp only [List.nil_append]
      exact readBalance_skip_nil post
  | cons s pre ih =>
      rw [List.cons_append, List.cons_append]
      unfold readBalance
      split_ifs
      · rfl
      · exact ih

lemma provisionSession_insert_nil (pre post : List (List Char)) :
    provisionSession (pre ++ [] :: post) = provisionSession (pre ++ post) := by
  induction pre with
  | nil =>
      simp only [List.nil_append]
      unfold provisionSession
      rw [readPlate_skip_nil]
  | cons s pre ih =>
      rw [List.cons_append, List.cons_append]
      unfold provisionSession readPlate
      by_cases h : s.length = 7
      · rw [if_pos h, if_pos h]
        dsimp only
        rw [readBalance_insert_nil]
      · rw [if_neg h, if_neg h]
        exact ih

/-- C10: a timed-out prompt with nothing received captures the empty
string, which is rejected exactly like any wrong-length input: the plate
and balance prompts both skip it and re-prompt, an empty attempt anywhere
in a session changes neither its outcome nor what gets written, and in
particular a timeout alone never writes to the tag or abandons the
session. -/
theorem provisioning_empty_input_reprompts :
    (∀ rest, readPlate ([] :: rest) = readPlate rest) ∧
    (∀ rest, readBalance ([] :: rest) = readBalance rest) ∧
    (∀ pre post, provisionSession (pre ++ [] :: post) =
        provisionSession (pre ++ post)) ∧
    (∀ tag a b c d pre post, provisionStep tag (pre ++ [] :: post) a b c d =
        provisionStep tag (pre ++ post) a b c d) := by
  refine ⟨readPlate_skip_nil, readBalance_skip_nil, provisionSession_insert_nil, ?_⟩
  intro tag a b c d pre post
  unfold provisionStep
  rw [provisionSession_insert_nil]
